import Mathlib

/-!
Verification of the vibetunnel terminal forwarder and process tracker.

Shallow embedding of:
* `src/terminal-forwarder/src/main.rs` — `TerminalManager` and its
  `create_session` / `write` / `resize` / `read` / `kill` operations, the
  per-session output buffer and the reader-thread append discipline, and the
  event trace of lock acquisition in each operation;
* `src/tauri/src-tauri/src/process_tracker.rs` — `ProcessTracker::find_terminal_ancestor`.

Rust `String` errors are embedded as an inductive `TFError` whose constructors
are the `format!` templates of the source; the spec's error *kinds*
(`NotFound`, `SpawnError`, `IoError`) are the classification `TFError.kind`.
Bytes are embedded as `Nat`, byte buffers as `List Nat`.
-/

namespace VibeTunnel

/-- The spec's error kinds for manager operations. -/
inductive ErrKind where
  | NotFound
  | SpawnError
  | IoError
deriving DecidableEq, Repr

/-- Errors of the terminal forwarder, one constructor per `format!` template in
`main.rs` (the `String` payload is the underlying error's message). -/
inductive TFError where
  | sessionNotFound
  | openptyFailed (e : String)
  | spawnFailed (e : String)
  | cloneReaderFailed (e : String)
  | takeWriterFailed (e : String)
  | writeFailed (e : String)
  | flushFailed (e : String)
  | resizeFailed (e : String)
deriving DecidableEq, Repr

/-- Classification of each concrete error into the spec's kind:
"session not found" is `NotFound`; the `create_session` failures
(openpty / spawn / clone reader / take writer) are `SpawnError`; the PTY I/O
failures (write / flush / resize) are `IoError`. -/
def TFError.kind : TFError → ErrKind
  | .sessionNotFound => .NotFound
  | .openptyFailed _ => .SpawnError
  | .spawnFailed _ => .SpawnError
  | .cloneReaderFailed _ => .SpawnError
  | .takeWriterFailed _ => .SpawnError
  | .writeFailed _ => .IoError
  | .flushFailed _ => .IoError
  | .resizeFailed _ => .IoError

/-- The PTY master's write half (`Box<dyn Write + Send>` in `Session.writer`).
`buffered` are bytes accepted by `write_all` but not yet flushed, `delivered`
are bytes that reached the PTY master. `failWrite` / `failFlush` model the
fallible underlying device: `some e` makes the next call fail with message
`e` (e.g. a broken pipe after the child exited). -/
structure Writer where
  delivered : List Nat
  buffered : List Nat
  failWrite : Option String
  failFlush : Option String
deriving DecidableEq, Repr

/-- `writer.write_all(data)`: accepts all the bytes or fails. -/
def Writer.write_all (w : Writer) (data : List Nat) : Except String Writer :=
  match w.failWrite with
  | some e => .error e
  | none => .ok { w with buffered := w.buffered ++ data }

/-- `writer.flush()`: pushes every buffered byte through to the PTY master. -/
def Writer.flush (w : Writer) : Except String Writer :=
  match w.failFlush with
  | some e => .error e
  | none => .ok { w with delivered := w.delivered ++ w.buffered, buffered := [] }

/-- A registered session (`struct Session` in `main.rs`): the PTY writer, the
output buffer filled by the reader thread, the PTY size held by `pty_pair`
(mutated by `resize`), and the spawn parameters held by the child process.
`failResize` models the fallible `master.resize` call. -/
structure Session where
  writer : Writer
  output : List Nat
  cols : Nat
  rows : Nat
  cmd : String
  args : List String
  cwd : Option String
  failResize : Option String
deriving DecidableEq, Repr

/-- The manager's registry: `HashMap<String, Session>` as an association list
with unique keys. -/
abbrev Registry := List (String × Session)

/-- `sessions.get(id)` / `get_mut(id)`. -/
def findSess : Registry → String → Option Session
  | [], _ => none
  | (k, s) :: rest, id => if k = id then some s else findSess rest id

/-- `sessions.remove(id)`. -/
def removeSess : Registry → String → Registry
  | [], _ => []
  | (k, s) :: rest, id =>
      if k = id then removeSess rest id else (k, s) :: removeSess rest id

/-- `sessions.insert(id, s)` (replaces any previous entry for `id`). -/
def insertSess (st : Registry) (id : String) (s : Session) : Registry :=
  removeSess st id ++ [(id, s)]

/-- `TerminalManager::write`: look the session up, `write_all` the bytes,
then `flush`; each `io` failure is wrapped in its `format!` template. -/
def TerminalManager.write (st : Registry) (id : String) (data : List Nat) :
    Except TFError Registry :=
  match findSess st id with
  | none => .error .sessionNotFound
  | some s =>
    match s.writer.write_all data with
    | .error e => .error (.writeFailed e)
    | .ok w1 =>
      match w1.flush with
      | .error e => .error (.flushFailed e)
      | .ok w2 => .ok (insertSess st id { s with writer := w2 })

/-- `TerminalManager::resize`: look the session up and resize its PTY master. -/
def TerminalManager.resize (st : Registry) (id : String) (cols rows : Nat) :
    Except TFError Registry :=
  match findSess st id with
  | none => .error .sessionNotFound
  | some s =>
    match s.failResize with
    | some e => .error (.resizeFailed e)
    | none => .ok (insertSess st id { s with cols := cols, rows := rows })

/-- `TerminalManager::read`: look the session up and `split_off(0)` the output
buffer — return everything in it and leave it empty. -/
def TerminalManager.read (st : Registry) (id : String) :
    Except TFError (List Nat × Registry) :=
  match findSess st id with
  | none => .error .sessionNotFound
  | some s => .ok (s.output, insertSess st id { s with output := [] })

/-- `TerminalManager::kill`: `sessions.remove(id)` and `Ok(())`
unconditionally. -/
def TerminalManager.kill (st : Registry) (id : String) : Except TFError Registry :=
  .ok (removeSess st id)

/-- Environment for one `create_session` call: the outcomes of the fallible
external calls (`openpty`, `spawn_command`, `try_clone_reader`, `take_writer`;
`some e` makes the call fail with message `e`) and the child's
`process_id()` result. -/
structure SpawnEnv where
  openptyErr : Option String
  spawnErr : Option String
  cloneReaderErr : Option String
  takeWriterErr : Option String
  childPid : Option Nat
deriving DecidableEq, Repr

/-- Outcome of `create_session`: success with the `(id, pid)` pair and the new
registry, an error `String` with the registry as the call left it, or a Rust
panic. -/
inductive CreateOutcome where
  | ok (id : String) (pid : Nat) (st : Registry)
  | err (e : TFError) (st : Registry)
  | panics (msg : String)
deriving DecidableEq, Repr

/-- `TerminalManager::create_session`, in the source's order: generate `id`,
`openpty` at `rows.unwrap_or(24)` × `cols.unwrap_or(80)`,
`CommandBuilder::new(&command[0])` (a panic when `command` is empty), add
`command[1..]` as args and `cwd` when given, spawn, take `process_id()` or 0,
clone the reader, take the writer, start the reader thread, insert the
session. `freshId` stands for the generated `Uuid::new_v4()` string. -/
def TerminalManager.create_session (env : SpawnEnv) (freshId : String)
    (st : Registry) (command : List String) (cwd : Option String)
    (cols rows : Option Nat) : CreateOutcome :=
  match env.openptyErr with
  | some e => .err (.openptyFailed e) st
  | none =>
    match command with
    | [] => .panics "index out of bounds: the len is 0 but the index is 0"
    | c0 :: rest =>
      match env.spawnErr with
      | some e => .err (.spawnFailed e) st
      | none =>
        let pid := env.childPid.getD 0
        match env.cloneReaderErr with
        | some e => .err (.cloneReaderFailed e) st
        | none =>
          match env.takeWriterErr with
          | some e => .err (.takeWriterFailed e) st
          | none =>
            let sess : Session :=
              { writer := { delivered := [], buffered := [],
                            failWrite := none, failFlush := none },
                output := [],
                cols := cols.getD 80,
                rows := rows.getD 24,
                cmd := c0,
                args := rest,
                cwd := cwd,
                failResize := none }
            .ok freshId pid (insertSess st freshId sess)

/-! ### The reader thread's append discipline and the drain of `read`

The reader thread appends each chunk it observes at the back of the output
buffer (`out.extend_from_slice(&buf[..n])`); `read` drains the whole buffer
from the front (`output.split_off(0)`). A history of such events determines
the buffer and the sequence of byte chunks the successive `read` calls
returned. -/

/-- `out.extend_from_slice(&buf[..n])` in the reader thread. -/
def readerAppend (out chunk : List Nat) : List Nat := out ++ chunk

/-- `output.split_off(0)` in `read`: the returned bytes and the buffer left
behind. -/
def drainAll (out : List Nat) : List Nat × List Nat := (out, [])

/-- One event in the life of an output buffer. -/
inductive BufEv where
  | append (chunk : List Nat)
  | drain
deriving DecidableEq, Repr

/-- Process one event: the state is the buffer together with the chunks the
`read` calls returned so far, in order. -/
def bufStep (s : List Nat × List (List Nat)) : BufEv → List Nat × List (List Nat)
  | .append c => (readerAppend s.1 c, s.2)
  | .drain => ((drainAll s.1).2, s.2 ++ [(drainAll s.1).1])

/-- Run a history of buffer events from the empty buffer. -/
def bufRun (es : List BufEv) : List Nat × List (List Nat) :=
  es.foldl bufStep ([], [])

/-- The chunks appended over a history, in append order. -/
def appendsOf (es : List BufEv) : List (List Nat) :=
  es.filterMap fun e =>
    match e with
    | .append c => some c
    | .drain => none

/-! ### Registry lemmas -/

theorem findSess_removeSess_self (st : Registry) (id : String) :
    findSess (removeSess st id) id = none := by
  induction st with
  | nil => rfl
  | cons p rest ih =>
    obtain ⟨k, s⟩ := p
    by_cases h : k = id
    · simpa [removeSess, h] using ih
    · simpa [removeSess, findSess, h] using ih

theorem findSess_removeSess_ne (st : Registry) (id j : String) (h : j ≠ id) :
    findSess (removeSess st id) j = findSess st j := by
  induction st with
  | nil => rfl
  | cons p rest ih =>
    obtain ⟨k, s⟩ := p
    by_cases hk : k = id
    · have hij : ¬ id = j := fun hq => h hq.symm
      simp [removeSess, findSess, hk, hij, ih]
    · by_cases hkj : k = j
      · simp [removeSess, findSess, hk, hkj, h]
      · simp [removeSess, findSess, hk, hkj, ih]

theorem findSess_append (a b : Registry) (j : String) :
    findSess (a ++ b) j =
      match findSess a j with
      | some s => some s
      | none => findSess b j := by
  induction a with
  | nil => rfl
  | cons p rest ih =>
    obtain ⟨k, s⟩ := p
    by_cases hk : k = j
    · simp [findSess, hk]
    · simp [findSess, hk, ih]

theorem findSess_insertSess_self (st : Registry) (id : String) (s : Session) :
    findSess (insertSess st id s) id = some s := by
  rw [insertSess, findSess_append, findSess_removeSess_self st id]
  simp [findSess]

theorem findSess_insertSess_ne (st : Registry) (id j : String) (s : Session)
    (h : j ≠ id) : findSess (insertSess st id s) j = findSess st j := by
  have hij : ¬ id = j := fun hq => h hq.symm
  rw [insertSess, findSess_append, findSess_removeSess_ne st id j h]
  cases hq : findSess st j with
  | none => simp [findSess, hij]
  | some s' => rfl

/-! ### Lock-event traces of the manager operations

Each manager operation is abstracted as the sequence of atomic events it
performs, in source order. In the Rust source the `MutexGuard` obtained from
`self.sessions.lock().unwrap()` lives to the end of the function body, so the
`release` event of each trace is the last event of the operation. -/

/-- Atomic events of a manager operation: the manager-wide registry lock,
registry accesses, PTY I/O, and output-buffer access. -/
inductive REv where
  | acquire
  | release
  | lookup
  | ins
  | rem
  | ptyWrite
  | ptyFlush
  | ptyResize
  | outDrain
deriving DecidableEq, Repr

/-- Event trace of `TerminalManager::write` (success path when the session is
found): the guard is taken at the top of the function and dropped at the end,
after `write_all` and `flush`. -/
def writeEvents (found : Bool) : List REv :=
  [REv.acquire, REv.lookup]
    ++ (if found then [REv.ptyWrite, REv.ptyFlush] else [])
    ++ [REv.release]

/-- Event trace of `TerminalManager::resize` (success path when found). -/
def resizeEvents (found : Bool) : List REv :=
  [REv.acquire, REv.lookup]
    ++ (if found then [REv.ptyResize] else [])
    ++ [REv.release]

/-- Event trace of `TerminalManager::read` (when found): the output-buffer
mutex is locked and drained while the registry guard is still alive. -/
def readEvents (found : Bool) : List REv :=
  [REv.acquire, REv.lookup]
    ++ (if found then [REv.outDrain] else [])
    ++ [REv.release]

/-- Event trace of `TerminalManager::kill`. -/
def killEvents : List REv := [REv.acquire, REv.rem, REv.release]

/-- Event trace of the registry part of `create_session` (all the PTY work
happens before this): the guard is taken only around the insert. -/
def createEvents : List REv := [REv.acquire, REv.ins, REv.release]

/-- How many registry-lock acquisitions are outstanding after a prefix of the
trace. -/
def lockDepth (tr : List REv) : Nat :=
  tr.foldl
    (fun d e =>
      match e with
      | REv.acquire => d + 1
      | REv.release => d - 1
      | _ => d)
    0

/-- Whether the registry lock is held while the event at index `i` executes. -/
def heldAt (tr : List REv) (i : Nat) : Bool :=
  0 < lockDepth (tr.take i)

/-- The events the claim calls PTY I/O or Output Buffer access. -/
def isPtyOrBuf : REv → Bool
  | REv.ptyWrite => true
  | REv.ptyFlush => true
  | REv.ptyResize => true
  | REv.outDrain => true
  | _ => false

/-- The claimed discipline: no PTY I/O or buffer access happens while the
registry lock is held. -/
def lockAvoidsPtyIo (tr : List REv) : Bool :=
  (List.range tr.length).all fun i => !(isPtyOrBuf (tr.getD i REv.release)) || !(heldAt tr i)

/-- The actual discipline of the source: every PTY I/O or buffer access
happens while the registry lock is held. -/
def ioUnderLock (tr : List REv) : Bool :=
  (List.range tr.length).all fun i => !(isPtyOrBuf (tr.getD i REv.release)) || heldAt tr i

/-! ### `ProcessTracker::find_terminal_ancestor` -/

/-- `ProcessInfo` from `process_tracker.rs`. -/
structure ProcessInfo where
  pid : Nat
  ppid : Nat
  name : String
deriving DecidableEq, Repr

/-- The OS process table as `find_terminal_ancestor` sees it:
`get_parent_process_id` and `get_process_info`. -/
structure ProcEnv where
  parent : Nat → Option Nat
  info : Nat → Option ProcessInfo

/-- `pat` is a prefix of the character list `hay`, written out so concrete
instances evaluate by kernel reduction. -/
def isPrefixOfL : List Char → List Char → Bool
  | [], _ => true
  | _ :: _, [] => false
  | p :: ps, h :: hs => p == h && isPrefixOfL ps hs

/-- `pat` occurs as a contiguous substring of `hay` (character lists). -/
def containsSubL : List Char → List Char → Bool
  | [], pat => pat.isEmpty
  | h :: t, pat => isPrefixOfL pat (h :: t) || containsSubL t pat

/-- Rust's `str::contains`: `hay` contains `pat` as a substring. -/
def strContainsSub (hay pat : String) : Bool :=
  containsSubL hay.data pat.data

/-- The fixed list of known terminal process names in
`find_terminal_ancestor`. -/
def terminalProcesses : List String :=
  ["Terminal", "iTerm2", "alacritty", "kitty", "wezterm",
   "gnome-terminal", "konsole", "xterm", "cmd.exe", "powershell.exe",
   "WindowsTerminal.exe"]

/-- `terminal_processes.iter().any(|&tp| info.name.contains(tp))`. -/
def isTerminalName (name : String) : Bool :=
  terminalProcesses.any fun tp => strContainsSub name tp

/-- `ProcessTracker::find_terminal_ancestor`: walk up the parent chain for at
most `maxDepth` steps; at each step take the parent, and when its process
info is available and its name matches a known terminal name, return that
parent; stop with `none` when no parent is available or the depth bound is
reached. -/
def find_terminal_ancestor (env : ProcEnv) : Nat → Nat → Option Nat
  | _, 0 => none
  | pid, d + 1 =>
    match env.parent pid with
    | none => none
    | some parentPid =>
      match env.info parentPid with
      | some i =>
        if isTerminalName i.name then some parentPid
        else find_terminal_ancestor env parentPid d
      | none => find_terminal_ancestor env parentPid d

/-- The `k`-th ancestor of `pid` in the parent chain (`0` is `pid` itself). -/
def nthParent (env : ProcEnv) : Nat → Nat → Option Nat
  | pid, 0 => some pid
  | pid, k + 1 =>
    match env.parent pid with
    | none => none
    | some parentPid => nthParent env parentPid k

/-! ### Sample data for concrete witnesses -/

/-- A concrete healthy session. -/
def sampleSession : Session :=
  { writer := { delivered := [], buffered := [], failWrite := none, failFlush := none },
    output := [7, 8],
    cols := 80, rows := 24,
    cmd := "bash", args := [], cwd := none,
    failResize := none }

/-- A concrete one-session registry. -/
def sampleRegistry : Registry := [("a", sampleSession)]

/-! ### Claim theorems -/

/-- C2: for every id absent from the registry — in particular any id after its
`kill` completed — `write`, `resize` and `read` all fail with the
"session not found" error, whose kind is `NotFound` (and, the result being
exactly that error, with no other kind). -/
theorem ops_unknown_id_notFound (st : Registry) (id : String) (data : List Nat)
    (cols rows : Nat) (h : findSess st id = none) :
    TerminalManager.write st id data = .error .sessionNotFound ∧
    TerminalManager.resize st id cols rows = .error .sessionNotFound ∧
    TerminalManager.read st id = .error .sessionNotFound ∧
    TFError.sessionNotFound.kind = ErrKind.NotFound ∧
    ∀ st₀ st', TerminalManager.kill st₀ id = .ok st' → findSess st' id = none := by
  refine ⟨?_, ?_, ?_, rfl, ?_⟩
  · simp [TerminalManager.write, h]
  · simp [TerminalManager.resize, h]
  · simp [TerminalManager.read, h]
  · intro st₀ st' hk
    simp only [TerminalManager.kill, Except.ok.injEq] at hk
    exact hk ▸ findSess_removeSess_self st₀ id

/-- Witness for C2 at the empty registry and id `"x"`. -/
theorem ops_unknown_id_notFound_witness :
    TerminalManager.write [] "x" [1] = .error .sessionNotFound ∧
    TerminalManager.resize [] "x" 80 24 = .error .sessionNotFound ∧
    TerminalManager.read [] "x" = .error .sessionNotFound ∧
    TFError.sessionNotFound.kind = ErrKind.NotFound ∧
    ∀ st₀ st', TerminalManager.kill st₀ "x" = .ok st' → findSess st' "x" = none :=
  ops_unknown_id_notFound [] "x" [1] 80 24 rfl

/-- C3: `kill` always succeeds, afterwards the registry has no session keyed
by `id`, and every other id's entry is unchanged; on an already-absent id the
result state equals the desired one just the same. -/
theorem kill_total_idempotent (st : Registry) (id : String) :
    ∃ st', TerminalManager.kill st id = .ok st' ∧ findSess st' id = none ∧
      ∀ j, j ≠ id → findSess st' j = findSess st j :=
  ⟨removeSess st id, rfl, findSess_removeSess_self st id,
    fun j hj => findSess_removeSess_ne st id j hj⟩

/-- Witness for C3 on a concrete registry. -/
theorem kill_total_idempotent_witness :
    ∃ st', TerminalManager.kill sampleRegistry "a" = .ok st' ∧
      findSess st' "a" = none ∧
      ∀ j, j ≠ "a" → findSess st' j = findSess sampleRegistry j :=
  kill_total_idempotent sampleRegistry "a"

/-- C4: whenever `create_session` returns an error (openpty, spawn, clone
reader or take writer failed), the error's kind is `SpawnError` and the
registry is exactly what it was before the call. -/
theorem create_err_spawnError_unchanged (env : SpawnEnv) (freshId : String)
    (st : Registry) (command : List String) (cwd : Option String)
    (cols rows : Option Nat) (e : TFError) (st' : Registry)
    (h : TerminalManager.create_session env freshId st command cwd cols rows
          = .err e st') :
    e.kind = ErrKind.SpawnError ∧ st' = st := by
  unfold TerminalManager.create_session at h
  split at h
  · injection h with h1 h2
    exact ⟨h1 ▸ rfl, h2.symm⟩
  · split at h
    · cases h
    · split at h
      · injection h with h1 h2
        exact ⟨h1 ▸ rfl, h2.symm⟩
      · split at h
        · injection h with h1 h2
          exact ⟨h1 ▸ rfl, h2.symm⟩
        · split at h
          · injection h with h1 h2
            exact ⟨h1 ▸ rfl, h2.symm⟩
          · cases h

/-- Witness for C4: openpty fails on a concrete call. -/
theorem create_err_spawnError_unchanged_witness :
    (TFError.openptyFailed "boom").kind = ErrKind.SpawnError ∧
    sampleRegistry = sampleRegistry :=
  create_err_spawnError_unchanged ⟨some "boom", none, none, none, none⟩ "i"
    sampleRegistry ["ls"] none none none (.openptyFailed "boom") sampleRegistry rfl

/-- C5: `read` on an existing session returns exactly the output buffer's
bytes as a success and leaves the buffer empty; a second `read` with no
intervening append is again a success returning the empty sequence. -/
theorem read_drains_and_empty_ok (st : Registry) (id : String) (s : Session)
    (h : findSess st id = some s) :
    ∃ st', TerminalManager.read st id = .ok (s.output, st') ∧
      findSess st' id = some { s with output := [] } ∧
      ∃ st'', TerminalManager.read st' id = .ok ([], st'') ∧
        findSess st'' id = some { s with output := [] } := by
  refine ⟨insertSess st id { s with output := [] }, ?_, ?_, ?_⟩
  · simp [TerminalManager.read, h]
  · exact findSess_insertSess_self st id { s with output := [] }
  · refine ⟨insertSess (insertSess st id { s with output := [] }) id
      { s with output := [] }, ?_, ?_⟩
    · simp [TerminalManager.read,
        findSess_insertSess_self st id { s with output := [] }]
    · exact findSess_insertSess_self _ id { s with output := [] }

/-- Witness for C5 on a concrete registry. -/
theorem read_drains_and_empty_ok_witness :
    ∃ st', TerminalManager.read sampleRegistry "a" = .ok (sampleSession.output, st') ∧
      findSess st' "a" = some { sampleSession with output := [] } ∧
      ∃ st'', TerminalManager.read st' "a" = .ok ([], st'') ∧
        findSess st'' "a" = some { sampleSession with output := [] } :=
  read_drains_and_empty_ok sampleRegistry "a" sampleSession rfl

/-- C7: a successful `create_session` on a non-empty command registers, under
the fresh id, a session whose PTY size is `cols`/`rows` with defaults 80×24,
whose child was spawned from `command[0]` with the remaining elements as
arguments and `cwd` as working directory, and returns the fresh id together
with the child's process id, 0 when unavailable. -/
theorem create_ok_registers (cp : Option Nat) (freshId : String) (st : Registry)
    (c0 : String) (rest : List String) (cwd : Option String)
    (cols rows : Option Nat) :
    ∃ st', TerminalManager.create_session ⟨none, none, none, none, cp⟩ freshId st
        (c0 :: rest) cwd cols rows = .ok freshId (cp.getD 0) st' ∧
      findSess st' freshId = some
        { writer := { delivered := [], buffered := [], failWrite := none, failFlush := none },
          output := [],
          cols := cols.getD 80,
          rows := rows.getD 24,
          cmd := c0,
          args := rest,
          cwd := cwd,
          failResize := none } :=
  ⟨_, rfl, findSess_insertSess_self st freshId _⟩

/-- C9: with the PTY successfully opened, `create_session` on an empty command
panics with an index-out-of-bounds on `command[0]` rather than returning an
error. -/
theorem create_empty_command_panics (se ce te : Option String) (cp : Option Nat)
    (freshId : String) (st : Registry) (cwd : Option String)
    (cols rows : Option Nat) :
    TerminalManager.create_session ⟨none, se, ce, te, cp⟩ freshId st [] cwd cols rows
      = .panics "index out of bounds: the len is 0 but the index is 0" := rfl

/-- C8: on an existing session, `write` succeeds exactly when the underlying
device faults neither on `write_all` nor on `flush`, and then the resulting
session's writer has delivered every byte — the old backlog and all of `data`
— with nothing left buffered (fully flushed before returning); when
`write_all` or `flush` fails the call fails, and both failures have kind
`IoError`. -/
theorem write_all_flush_or_ioError (st : Registry) (id : String)
    (data : List Nat) (s : Session) (h : findSess st id = some s) :
    (s.writer.failWrite = none → s.writer.failFlush = none →
      TerminalManager.write st id data = .ok (insertSess st id
        { s with writer :=
            { delivered := s.writer.delivered ++ s.writer.buffered ++ data,
              buffered := [],
              failWrite := none,
              failFlush := none } })) ∧
    (∀ e, s.writer.failWrite = some e →
      TerminalManager.write st id data = .error (.writeFailed e)) ∧
    (∀ e, s.writer.failWrite = none → s.writer.failFlush = some e →
      TerminalManager.write st id data = .error (.flushFailed e)) ∧
    (∀ e, (TFError.writeFailed e).kind = ErrKind.IoError ∧
      (TFError.flushFailed e).kind = ErrKind.IoError) := by
  refine ⟨?_, ?_, ?_, fun e => ⟨rfl, rfl⟩⟩
  · intro hfw hff
    simp [TerminalManager.write, h, Writer.write_all, Writer.flush, hfw, hff,
      List.append_assoc]
  · intro e hfw
    simp [TerminalManager.write, h, Writer.write_all, hfw]
  · intro e hfw hff
    simp [TerminalManager.write, h, Writer.write_all, Writer.flush, hfw, hff]

/-- Witness for C8 on a concrete healthy session. -/
theorem write_all_flush_or_ioError_witness :
    TerminalManager.write sampleRegistry "a" [1, 2] = .ok (insertSess sampleRegistry "a"
      { sampleSession with writer :=
          { delivered := sampleSession.writer.delivered
              ++ sampleSession.writer.buffered ++ [1, 2],
            buffered := [],
            failWrite := none,
            failFlush := none } }) :=
  (write_all_flush_or_ioError sampleRegistry "a" [1, 2] sampleSession rfl).1 rfl rfl

theorem bufRun_aux (es : List BufEv) :
    ∀ (b : List Nat) (rs : List (List Nat)),
      (es.foldl bufStep (b, rs)).2.flatten ++ (es.foldl bufStep (b, rs)).1
        = rs.flatten ++ b ++ (appendsOf es).flatten := by
  induction es with
  | nil =>
    intro b rs
    simp [appendsOf]
  | cons e rest ih =>
    intro b rs
    cases e with
    | append c =>
      simp only [List.foldl_cons, bufStep, readerAppend]
      rw [ih (b ++ c) rs]
      simp [appendsOf, List.append_assoc]
    | drain =>
      simp only [List.foldl_cons, bufStep, drainAll]
      rw [ih [] (rs ++ [b])]
      simp [appendsOf, List.append_assoc]

/-- C6: over any history of reader-thread appends and `read` drains starting
from the empty buffer, the concatenation of the chunks the `read` calls
returned, followed by what is still in the buffer, equals the concatenation
in append order of all chunks appended — so drained output preserves FIFO
order, and when the buffer has been fully drained the reads' concatenation
equals the appends' concatenation exactly. -/
theorem output_buffer_fifo (es : List BufEv) :
    (bufRun es).2.flatten ++ (bufRun es).1 = (appendsOf es).flatten := by
  have := bufRun_aux es [] []
  simpa [bufRun] using this

/-- C10: `find_terminal_ancestor` returns `some p` only when `p`'s process
info is available and its name contains one of the fixed terminal names, and
`p` is reached from `pid` in at most `maxDepth` parent steps (in every other
case the result, being an `Option`, is `none`). -/
theorem find_terminal_ancestor_sound (env : ProcEnv) (pid d p : Nat)
    (h : find_terminal_ancestor env pid d = some p) :
    (∃ i, env.info p = some i ∧ isTerminalName i.name = true) ∧
    (∃ k, k < d ∧ nthParent env pid (k + 1) = some p) := by
  induction d generalizing pid with
  | zero => simp [find_terminal_ancestor] at h
  | succ d ih =>
    unfold find_terminal_ancestor at h
    split at h
    · cases h
    · rename_i pp hp
      split at h
      · rename_i i hi
        split at h
        · rename_i ht
          injection h with h1
          subst h1
          exact ⟨⟨i, hi, ht⟩, ⟨0, Nat.succ_pos d, by simp [nthParent, hp]⟩⟩
        · obtain ⟨hterm, k, hk, hnth⟩ := ih pp h
          refine ⟨hterm, ⟨k + 1, Nat.succ_lt_succ hk, ?_⟩⟩
          simpa [nthParent, hp] using hnth
      · obtain ⟨hterm, k, hk, hnth⟩ := ih pp h
        refine ⟨hterm, ⟨k + 1, Nat.succ_lt_succ hk, ?_⟩⟩
        simpa [nthParent, hp] using hnth

/-- A concrete process table: 10's parent is 5 (a shell), 5's parent is 2
(an iTerm2 process). -/
def sampleProcEnv : ProcEnv :=
  { parent := fun pid => if pid = 10 then some 5 else if pid = 5 then some 2 else none,
    info := fun pid =>
      if pid = 2 then some ⟨2, 1, "iTerm2"⟩
      else if pid = 5 then some ⟨5, 2, "zsh"⟩
      else none }

/-- Witness for C10 on the concrete process table. -/
theorem find_terminal_ancestor_sound_witness :
    (∃ i, sampleProcEnv.info 2 = some i ∧ isTerminalName i.name = true) ∧
    (∃ k, k < 5 ∧ nthParent sampleProcEnv 10 (k + 1) = some 2) :=
  find_terminal_ancestor_sound sampleProcEnv 10 5 2 (by decide)

/-- C1 counterexample: in the source, the registry guard taken at the top of
`write` / `resize` / `read` is still held while the PTY write/flush, the PTY
resize and the output-buffer drain execute, so the claimed
lock-never-held-across-I/O discipline is false on the found-session traces. -/
theorem lock_discipline_counterexample :
    lockAvoidsPtyIo (writeEvents true) = false ∧
    lockAvoidsPtyIo (resizeEvents true) = false ∧
    lockAvoidsPtyIo (readEvents true) = false := by decide

/-- C1 amended: `create` and `kill` hold the registry lock only around the
insert/remove, but in `write`, `resize` and `read` the guard spans the whole
operation — every PTY I/O and output-buffer event of those traces executes
with the registry lock held, each trace starting with its acquire and ending
with its release — so these operations on two distinct sessions serialize on
the manager-wide lock. -/
theorem lock_held_across_io :
    lockAvoidsPtyIo createEvents = true ∧
    lockAvoidsPtyIo killEvents = true ∧
    ioUnderLock (writeEvents true) = true ∧
    ioUnderLock (resizeEvents true) = true ∧
    ioUnderLock (readEvents true) = true ∧
    (writeEvents true).head? = some REv.acquire ∧
    (writeEvents true).getLast? = some REv.release ∧
    (resizeEvents true).head? = some REv.acquire ∧
    (resizeEvents true).getLast? = some REv.release ∧
    (readEvents true).head? = some REv.acquire ∧
    (readEvents true).getLast? = some REv.release := by decide

end VibeTunnel
